import Mathlib

/-!
Shallow embedding of the decryption trial harness (`test.py`).

Bytes are modelled as `Nat` (values below 256 in all real inputs), byte
strings as `List Nat`.  The only uncaught runtime fault the core primitives
can raise is Python's `ZeroDivisionError` (from `i % len(key)` with an empty
key); fallible primitives therefore return `Except RunError (List Nat)`.
The external AES block transforms and the MD5 digest live in third-party
libraries, so the definitions that use them are parameterised over those
functions.
-/

/-- Runtime faults a primitive can raise: modulo by zero on an empty key. -/
inductive RunError where
  | zeroDivision
deriving DecidableEq

/-- One step of the XOR loop: `out.append(byte ^ key[i % key_len])`,
carrying the running index `i` of `enumerate(data)`. -/
def xorRun : Nat → List Nat → List Nat → List Nat
  | _, [], _ => []
  | i, b :: bs, key => (b ^^^ key.getD (i % key.length) 0) :: xorRun (i + 1) bs key

/-- `xor_decrypt(data, key)`: with empty `data` the loop body never runs and
empty bytes are returned; with nonempty `data` and an empty key the first
`i % len(key)` raises `ZeroDivisionError`. -/
def xor_decrypt (data key : List Nat) : Except RunError (List Nat) :=
  match data with
  | [] => .ok []
  | _ :: _ =>
    if key.length = 0 then .error .zeroDivision
    else .ok (xorRun 0 data key)

/-- `S[i], S[j] = S[j], S[i]` on a Python list: both right-hand sides are
read from the original list before either cell is written. -/
def listSwap (l : List Nat) (i j : Nat) : List Nat :=
  (l.set i (l.getD j 0)).set j (l.getD i 0)

/-- The RC4 running state: permutation array `S` and the two indices. -/
structure Rc4State where
  S : List Nat
  i : Nat
  j : Nat
deriving DecidableEq

/-- One swap-and-index update of the PRGA loop (also the warm-up loop):
`i = (i+1) % 256; j = (j+S[i]) % 256; swap`. -/
def prgaStep (st : Rc4State) : Rc4State :=
  let i := (st.i + 1) % 256
  let j := (st.j + st.S.getD i 0) % 256
  ⟨listSwap st.S i j, i, j⟩

/-- The keystream byte emitted after a step: `S[(S[i] + S[j]) % 256]`. -/
def prgaByte (st : Rc4State) : Nat :=
  st.S.getD ((st.S.getD st.i 0 + st.S.getD st.j 0) % 256) 0

/-- The PRGA output loop: for each data byte advance the state and emit
`byte ^ S[(S[i]+S[j]) % 256]`. -/
def prgaRun (st : Rc4State) : List Nat → List Nat
  | [] => []
  | b :: bs => (b ^^^ prgaByte (prgaStep st)) :: prgaRun (prgaStep st) bs

/-- The KSA loop of `rc4_decrypt`/`rc4mi_decrypt`: 256 iterations of
`j = (j + S[i] + key[i % len(key)]) % 256; swap` starting from
`S = list(range(256))`, `j = 0`. -/
def ksa (key : List Nat) : List Nat :=
  ((List.range 256).foldl
    (fun (p : List Nat × Nat) i =>
      let j := (p.2 + p.1.getD i 0 + key.getD (i % key.length) 0) % 256
      (listSwap p.1 i j, j))
    (List.range 256, 0)).1

/-- Standard RC4 on a nonempty key: KSA, then the PRGA from `i = j = 0`. -/
def rc4Total (data key : List Nat) : List Nat :=
  prgaRun ⟨ksa key, 0, 0⟩ data

/-- `rc4_decrypt(data, key)`: the KSA reads `key[i % len(key)]` at `i = 0`
before anything else, so an empty key raises `ZeroDivisionError` even for
empty data. -/
def rc4_decrypt (data key : List Nat) : Except RunError (List Nat) :=
  if key.length = 0 then .error .zeroDivision
  else .ok (rc4Total data key)

/-- Vendor-variant RC4 on a nonempty key: KSA, then `for _ in range(1024)`
discard rounds of the swap-and-index update, then the PRGA. -/
def rc4miTotal (data key : List Nat) : List Nat :=
  prgaRun ((List.range 1024).foldl (fun st _ => prgaStep st) ⟨ksa key, 0, 0⟩) data

/-- `rc4mi_decrypt(data, key)`: same empty-key fault as `rc4_decrypt`. -/
def rc4mi_decrypt (data key : List Nat) : Except RunError (List Nat) :=
  if key.length = 0 then .error .zeroDivision
  else .ok (rc4miTotal data key)

/-- Key lengths accepted by the external AES library (`AES.new` raises
`ValueError` for any other length). -/
def aesKeyLenOk (key : List Nat) : Bool :=
  key.length == 16 || key.length == 24 || key.length == 32

/-- The bytes of `"Error: "`, the fixed head of `f"Error: {e}".encode()`
returned by the AES trial wrappers on an exception. -/
def errHead : List Nat := [69, 114, 114, 111, 114, 58, 32]

/-- `aes_ecb_decrypt(data, key)`, parameterised over the external raw
AES-ECB decryption `blockDec` and the exception text bytes `excMsg`:
zero-pad `data` to `(len(data)+15)//16*16`, decrypt, truncate to
`len(data)`; on a rejected key length return `f"Error: {e}".encode()`. -/
def aes_ecb_decrypt (blockDec : List Nat → List Nat → List Nat)
    (excMsg : List Nat) (data key : List Nat) : List Nat :=
  if aesKeyLenOk key then
    let padded_len := (data.length + 15) / 16 * 16
    let padded_data := data ++ List.replicate (padded_len - data.length) 0
    (blockDec key padded_data).take data.length
  else errHead ++ excMsg

/-- `aes_cbc_decrypt(data, key, iv)`, parameterised over the external raw
AES-CBC decryption `blockDec` (taking key, IV and input) and the exception
text bytes.  `iv = None` defaults to sixteen zero bytes; the library also
rejects a wrong IV length. -/
def aes_cbc_decrypt (blockDec : List Nat → List Nat → List Nat → List Nat)
    (excMsg : List Nat) (data key : List Nat) (iv : Option (List Nat)) : List Nat :=
  let iv0 := iv.getD (List.replicate 16 0)
  if aesKeyLenOk key && iv0.length == 16 then
    let padded_len := (data.length + 15) / 16 * 16
    let padded_data := data ++ List.replicate (padded_len - data.length) 0
    (blockDec key iv0 padded_data).take data.length
  else errHead ++ excMsg

/-- `is_valid_mp3(data)`: length at least 4, then the `ID3` tag or the MP3
frame-sync pattern `data[0] == 0xFF and (data[1] & 0xE0) == 0xE0`. -/
def is_valid_mp3 (data : List Nat) : Bool :=
  if data.length < 4 then false
  else if data.take 3 == [73, 68, 51] then true
  else if data.getD 0 0 == 255 && (data.getD 1 0) &&& 224 == 224 then true
  else false

/-- A trial primitive as invoked by the orchestrator loop in `main`. -/
abbrev Primitive := List Nat → List Nat → Except RunError (List Nat)

/-- The per-trial record the orchestrator assembles: the captured outcome
and the validator's verdict on a successful decryption. -/
structure TrialResult where
  outcome : Except RunError (List Nat)
  valid : Bool

/-- One iteration of `main`'s trial loop: run the primitive inside
`try/except`; a success is scored with `is_valid_mp3`, an exception is
captured as a failed trial. -/
def runTrial (f : Primitive) (data key : List Nat) : TrialResult :=
  match f data key with
  | .ok p => ⟨.ok p, is_valid_mp3 p⟩
  | .error e => ⟨.error e, false⟩

/-- `main`'s loop over the `methods` registry: every entry is tried with
the same data and key, each inside its own `try/except`. -/
def runAll (registry : List Primitive) (data key : List Nat) : List TrialResult :=
  registry.map (fun f => runTrial f data key)

/-- Nibble to lowercase ASCII hex digit (`0`..`9`, `a`..`f`). -/
def hexDigit (n : Nat) : Nat :=
  if n < 10 then 48 + n else 87 + n

/-- Canonical lowercase hexadecimal text (as ASCII bytes) of a byte
string, two digits per byte, as produced by `binascii.hexlify`. -/
def hexEncode : List Nat → List Nat
  | [] => []
  | b :: bs => hexDigit (b / 16) :: hexDigit (b % 16) :: hexEncode bs

/-- Value of one ASCII hex digit, accepting the digits and both letter
cases exactly as `binascii.unhexlify` does. -/
def hexVal (c : Nat) : Option Nat :=
  if 48 ≤ c ∧ c ≤ 57 then some (c - 48)
  else if 97 ≤ c ∧ c ≤ 102 then some (c - 87)
  else if 65 ≤ c ∧ c ≤ 70 then some (c - 55)
  else none

/-- `binascii.unhexlify` on ASCII bytes: pairs of hex digits, high nibble
first; odd length or a non-hex character is an error. -/
def unhexlify : List Nat → Option (List Nat)
  | [] => some []
  | [_] => none
  | c1 :: c2 :: rest =>
    match hexVal c1, hexVal c2, unhexlify rest with
    | some h, some l, some r => some ((16 * h + l) :: r)
    | _, _, _ => none

/-- Character class of the canonical lowercase hex alphabet. -/
def isLowerHexChar (c : Nat) : Bool :=
  (48 ≤ c && c ≤ 57) || (97 ≤ c && c ≤ 102)

/-- `hashlib.md5(secure_key_hex.encode()).digest()`, parameterised over the
external MD5 digest: the digest is taken over the hex text bytes, not over
the decoded key bytes. -/
def md5_key (md5 : List Nat → List Nat) (secure_key_hex : List Nat) : List Nat :=
  md5 secure_key_hex

/-- Intermediate states of the vendor warm-up for the concrete key `[19]`,
recorded every 128 discard rounds; used only to evaluate the counterexample
to the universal-difference part of C3. -/
def ksaL19v0 : List Nat := [2,39,60,163,56,129,250,246,35,235,91,38,46,101,134,59,203,239,170,78,251,116,157,199,73,45,135,240,15,216,105,41,150,144,67,252,63,3,225,124,227,54,92,6,217,30,90,58,223,62,158,253,245,61,109,185,25,80,219,81,110,182,222,208,49,37,204,210,27,120,241,132,126,103,18,166,127,113,202,173,114,232,83,236,55,190,231,175,139,148,69,122,230,28,12,5,118,234,74,229,111,138,96,17,142,193,146,160,9,128,31,21,34,201,165,26,136,243,8,11,152,47,52,94,93,68,143,218,14,48,75,176,189,206,167,130,181,214,65,155,247,151,220,172,198,197,153,178,16,200,4,192,184,0,221,95,226,156,112,10,29,196,212,88,125,32,140,187,159,22,20,36,147,149,186,244,237,248,195,77,107,19,164,87,40,255,7,131,238,115,169,121,100,97,50,249,1,205,85,72,51,24,123,23,76,86,98,254,44,228,213,141,99,215,108,70,209,89,82,33,168,162,106,133,104,84,42,161,188,191,183,13,137,43,180,194,119,211,171,242,179,224,117,233,145,102,57,66,177,53,154,71,64,174,207,79]

def warmSt0 : Rc4State := ⟨ksaL19v0, 0, 0⟩

def ksaL19v1 : List Nat := [134,124,193,227,222,223,203,163,243,110,97,199,116,52,2,114,8,102,69,34,137,217,27,13,3,48,94,11,139,37,126,201,39,192,230,108,18,55,58,62,250,80,200,95,136,234,119,53,121,210,84,106,160,74,236,68,173,143,118,6,26,93,66,72,240,142,132,60,190,86,169,43,36,127,83,123,10,7,189,156,81,56,157,185,218,149,16,15,206,120,103,247,165,220,221,170,101,111,150,175,153,87,212,77,133,229,231,141,129,115,168,224,211,96,82,41,63,135,61,177,17,42,128,104,9,20,246,75,198,45,73,176,202,54,167,130,181,214,65,155,122,151,28,172,14,197,30,178,146,92,4,144,184,0,12,59,226,25,112,5,29,196,235,88,125,32,140,187,159,22,109,105,147,46,186,244,237,248,195,152,107,19,164,138,40,255,113,131,238,219,241,182,100,91,50,249,1,205,85,208,51,24,166,23,76,148,98,254,44,228,213,245,99,215,252,70,209,89,67,33,31,162,253,216,35,158,47,161,188,191,183,38,251,204,180,194,90,78,171,242,179,21,117,233,145,239,57,232,49,225,154,71,64,174,207,79]

def warmSt1 : Rc4State := ⟨ksaL19v1, 128, 144⟩

def ksaL19v2 : List Nat := [204,124,46,227,222,223,73,113,194,110,97,199,116,179,2,114,30,102,33,34,137,197,27,13,182,48,94,11,139,37,126,0,39,192,230,140,18,55,58,188,250,80,200,12,136,14,119,53,121,31,29,106,71,74,236,68,173,143,118,6,26,93,66,72,240,65,254,60,213,86,180,43,226,127,83,123,10,7,189,156,67,56,157,185,218,209,16,151,206,120,242,247,165,167,221,195,101,25,90,175,153,87,207,144,171,229,214,161,129,115,168,112,211,45,82,148,64,19,61,125,17,42,128,104,166,159,246,75,24,219,203,152,4,176,220,216,146,231,131,208,100,15,187,201,234,117,44,23,177,225,255,35,249,1,95,158,248,111,228,178,233,138,235,154,244,191,108,253,20,50,134,54,99,193,89,237,181,36,239,232,49,135,142,224,32,70,163,85,190,91,51,3,8,78,252,145,184,59,251,169,107,5,47,38,130,28,215,92,79,196,186,162,98,133,202,198,149,238,76,69,210,132,41,21,174,212,9,141,62,183,77,22,105,122,155,57,241,88,147,103,52,81,217,84,172,170,243,164,150,245,96,160,63,40,205,109]

def warmSt2 : Rc4State := ⟨ksaL19v2, 0, 255⟩

def ksaL19v3 : List Nat := [204,104,50,113,60,102,173,100,59,106,177,118,45,185,4,243,137,6,72,91,69,189,85,11,246,89,92,107,235,169,86,126,129,58,158,228,181,22,136,166,198,74,29,26,27,5,165,19,147,203,61,249,21,132,233,120,44,225,247,128,160,146,47,230,231,66,13,214,238,213,15,123,95,42,130,144,56,90,236,36,172,205,33,218,31,41,121,176,227,79,161,119,240,133,82,53,76,84,206,63,143,241,192,32,114,30,70,252,219,67,248,94,71,112,239,217,103,170,64,237,8,178,127,39,182,251,80,37,211,124,179,152,2,151,220,216,93,199,131,208,7,180,187,201,234,117,73,23,97,153,255,35,110,1,226,157,168,111,140,223,197,138,139,154,244,191,108,253,20,46,134,54,99,193,48,125,18,156,221,232,49,135,142,224,43,222,163,207,190,34,51,3,17,78,242,145,184,194,159,75,254,14,65,38,83,28,215,116,68,196,186,162,98,167,202,250,149,0,101,229,210,188,209,24,174,212,9,141,62,183,77,55,105,122,155,57,87,88,16,200,52,81,148,25,115,195,171,164,150,245,96,12,175,40,10,109]

def warmSt3 : Rc4State := ⟨ksaL19v3, 128, 223⟩

def ksaL19v4 : List Nat := [143,3,50,155,60,102,173,171,117,106,177,118,45,185,179,243,137,6,72,91,69,189,85,175,246,111,92,152,235,169,242,126,129,196,158,28,181,180,216,166,198,74,29,26,78,5,134,207,147,203,61,249,255,212,233,254,44,99,247,234,57,146,47,40,231,66,140,214,238,14,15,18,191,131,130,144,56,90,148,36,93,73,33,221,31,41,121,149,227,98,161,124,195,68,82,53,163,105,206,63,222,241,192,184,139,52,208,252,219,67,248,94,138,7,51,217,103,170,253,237,8,210,127,39,182,245,80,37,211,119,4,48,20,55,65,25,101,183,226,70,112,22,174,46,23,59,205,87,156,154,21,176,194,115,42,77,123,142,13,58,157,71,12,132,11,95,187,186,232,24,215,204,75,172,43,145,97,141,17,201,0,76,116,83,2,34,81,19,88,38,10,104,209,27,250,224,32,167,202,110,1,213,107,54,153,162,165,89,133,223,62,164,79,225,120,86,35,193,190,188,178,96,218,109,220,200,150,168,229,244,236,230,16,114,113,160,128,9,84,125,30,135,197,136,159,240,100,228,49,251,64,122,199,151,239,108]

def warmSt4 : Rc4State := ⟨ksaL19v4, 0, 171⟩

def ksaL19v5 : List Nat := [143,253,146,39,171,177,195,216,113,241,211,94,139,105,219,170,23,21,111,99,255,249,239,172,222,218,102,107,61,149,131,110,191,232,36,202,118,207,41,175,217,242,190,159,140,185,162,119,106,47,135,252,147,16,223,93,122,121,63,144,138,220,109,98,52,4,133,124,57,12,141,127,234,38,68,7,198,208,85,215,37,67,114,28,128,40,0,248,151,163,126,187,152,204,123,233,103,18,44,90,132,31,213,180,196,231,129,24,69,1,166,155,156,89,80,5,243,83,43,84,100,73,116,199,17,186,29,247,169,184,66,48,20,55,65,25,101,183,226,70,112,22,174,46,137,59,205,87,238,154,6,176,194,115,42,77,82,142,13,58,157,71,14,246,11,95,214,245,45,189,158,130,75,92,3,145,97,15,182,201,91,76,56,60,2,34,81,19,88,74,10,104,209,27,250,224,32,167,221,161,210,192,173,54,153,134,165,254,78,53,62,164,79,225,120,86,35,193,51,188,178,96,72,203,50,200,150,168,229,244,236,230,212,33,117,160,179,9,237,125,30,235,197,136,26,240,8,228,49,251,64,206,181,227,148,108]

def warmSt5 : Rc4State := ⟨ksaL19v5, 128, 10⟩

def ksaL19v6 : List Nat := [183,136,146,39,66,177,195,216,113,15,211,19,192,105,134,76,23,21,111,251,255,249,239,54,81,218,102,107,157,70,160,104,191,232,194,202,35,207,41,175,217,242,190,159,75,185,162,77,106,47,135,252,78,91,223,93,59,121,63,144,138,220,188,98,164,4,133,124,57,13,141,56,20,154,68,7,210,208,85,6,96,67,82,28,128,32,0,248,151,206,126,187,152,204,95,233,65,18,137,203,132,31,213,189,201,231,205,24,69,1,166,155,225,14,11,5,243,83,43,84,100,197,161,199,17,214,117,58,169,250,230,60,234,2,209,193,153,240,86,120,22,227,130,79,44,142,129,27,45,50,215,108,72,48,123,174,236,122,12,182,61,90,89,180,80,53,245,34,158,246,145,200,140,74,149,73,244,254,55,165,235,170,127,10,247,173,49,94,229,109,147,110,103,36,97,16,40,181,46,228,198,178,221,125,92,219,196,33,176,179,112,52,25,156,212,168,9,226,171,167,30,37,87,88,38,237,119,8,71,51,148,184,64,241,29,131,42,26,150,172,139,224,238,253,118,101,186,116,222,99,3,163,143,114,62,115]

def warmSt6 : Rc4State := ⟨ksaL19v6, 0, 219⟩

def ksaL19v7 : List Nat := [183,255,251,137,95,76,43,207,107,93,114,23,176,121,110,225,141,72,205,101,203,133,241,104,177,68,65,232,20,130,162,132,202,45,0,3,252,111,106,88,135,187,24,151,35,152,143,154,11,90,247,117,1,219,140,190,180,50,25,54,150,221,209,64,22,44,14,142,220,231,144,236,16,60,29,224,39,27,96,138,98,124,8,115,58,182,18,206,222,139,84,216,169,149,201,226,244,30,31,26,161,157,9,105,248,168,145,173,155,81,6,59,41,191,4,189,153,167,112,166,147,19,77,13,85,100,69,165,119,250,230,197,234,2,188,193,243,240,86,120,164,227,70,79,78,67,129,208,113,5,215,108,21,48,123,174,56,122,12,32,61,47,89,75,80,53,245,34,158,246,242,200,223,74,204,73,102,254,55,128,235,170,127,10,217,15,49,94,229,109,214,134,103,36,97,210,40,181,46,228,198,178,57,125,92,91,196,33,192,179,195,52,63,156,212,199,213,233,171,83,194,37,87,175,38,237,185,82,71,51,148,184,17,239,218,131,42,136,126,172,66,7,238,253,118,146,186,116,159,99,249,163,160,211,62,28]

def warmSt7 : Rc4State := ⟨ksaL19v7, 128, 92⟩

def ksaL19v8 : List Nat := [170,197,251,137,164,70,43,207,107,93,127,179,176,121,125,225,49,72,205,80,10,133,51,48,239,208,65,194,20,234,32,132,217,199,0,181,252,111,106,88,135,253,24,151,122,152,143,154,11,90,247,63,1,219,140,79,94,50,25,54,230,245,209,254,37,102,14,142,220,231,178,42,53,129,172,224,39,240,96,138,98,228,8,115,58,182,250,206,192,73,212,61,169,243,201,34,214,30,31,26,161,157,215,105,248,168,193,103,155,74,40,59,41,191,4,189,153,167,55,108,56,19,77,13,223,100,69,213,233,18,150,255,131,78,156,145,149,27,109,183,134,89,17,36,136,163,159,68,67,190,9,87,33,104,60,22,82,242,126,162,216,113,81,210,101,16,38,226,211,188,146,97,158,46,123,83,44,64,7,91,237,232,114,203,12,15,171,180,130,47,244,21,173,5,66,144,6,3,227,124,75,86,165,160,222,186,166,184,92,23,196,238,28,246,84,45,128,175,141,139,120,174,195,119,221,198,29,71,147,241,200,95,76,118,117,229,236,202,249,185,52,112,35,116,177,99,57,187,204,148,62,235,110,85,2,218]

def warmSt8 : Rc4State := ⟨ksaL19v8, 0, 139⟩

/-! ### Helper lemmas -/

lemma xorRun_xorRun (key : List Nat) :
    ∀ (data : List Nat) (i : Nat), xorRun i (xorRun i data key) key = data := by
  intro data
  induction data with
  | nil => intro i; rfl
  | cons b bs ih => intro i; simp [xorRun, Nat.xor_cancel_right, ih]

lemma prgaRun_prgaRun : ∀ (data : List Nat) (st : Rc4State),
    prgaRun st (prgaRun st data) = data := by
  intro data
  induction data with
  | nil => intro st; rfl
  | cons b bs ih => intro st; simp [prgaRun, Nat.xor_cancel_right, ih]

lemma foldl_const_iterate {α : Type} (f : α → α) :
    ∀ (n : Nat) (x : α), (List.range n).foldl (fun st _ => f st) x = f^[n] x := by
  intro n
  induction n with
  | zero => intro x; rfl
  | succ k ih =>
    intro x
    rw [List.range_succ, List.foldl_append, ih, Function.iterate_succ_apply']
    rfl

lemma prgaRun_append (xs : List Nat) : ∀ (ys : List Nat) (st : Rc4State),
    prgaRun st (xs ++ ys) = prgaRun st xs ++ prgaRun (prgaStep^[xs.length] st) ys := by
  induction xs with
  | nil => intro ys st; rfl
  | cons b bs ih =>
    intro ys st
    simp [prgaRun, ih, Function.iterate_succ_apply]

lemma length_prgaRun : ∀ (data : List Nat) (st : Rc4State),
    (prgaRun st data).length = data.length := by
  intro data
  induction data with
  | nil => intro st; rfl
  | cons b bs ih => intro st; simp [prgaRun, ih]

/-! ### Claims -/

/-- Claim C2: `is_valid_mp3` accepts exactly the byte strings of length at
least 4 whose first three bytes are `ID3` or whose first byte is `0xFF`
with the second byte's top three bits set; every input shorter than 4
bytes and every all-zero input is rejected, and every input of length at
least 4 starting with `ID3` is accepted. -/
theorem c2_validator_characterisation (data : List Nat) :
    (is_valid_mp3 data = true ↔
      (4 ≤ data.length ∧ (data.take 3 = [73, 68, 51] ∨
        (data.getD 0 0 = 255 ∧ (data.getD 1 0) &&& 224 = 224))))
    ∧ (data.length < 4 → is_valid_mp3 data = false)
    ∧ (∀ n : Nat, is_valid_mp3 (List.replicate n 0) = false)
    ∧ (4 ≤ data.length → data.take 3 = [73, 68, 51] → is_valid_mp3 data = true) := by
  have hmain : ∀ d : List Nat, is_valid_mp3 d = true ↔
      (4 ≤ d.length ∧ (d.take 3 = [73, 68, 51] ∨
        (d.getD 0 0 = 255 ∧ (d.getD 1 0) &&& 224 = 224))) := by
    intro d
    unfold is_valid_mp3
    split_ifs with h1 h2 h3
    · simp; omega
    · simp only [true_iff]
      exact ⟨by omega, Or.inl (by simpa using h2)⟩
    · simp only [Bool.and_eq_true, beq_iff_eq] at h3
      simp only [true_iff]
      exact ⟨by omega, Or.inr h3⟩
    · simp only [Bool.and_eq_true, beq_iff_eq] at h2 h3
      simp only [false_iff]
      rintro ⟨h4, h5 | h6⟩
      · exact h2 (by simpa using h5)
      · exact h3 ⟨h6.1, h6.2⟩
  refine ⟨hmain data, ?_, ?_, ?_⟩
  · intro hshort
    rcases h : is_valid_mp3 data with _ | _
    · rfl
    · exact absurd ((hmain data).mp h).1 (by omega)
  · intro n
    rcases h : is_valid_mp3 (List.replicate n 0) with _ | _
    · rfl
    · obtain ⟨h4, hcase⟩ := (hmain _).mp h
      rw [List.length_replicate] at h4
      obtain ⟨m, rfl⟩ : ∃ m, n = m + 4 := ⟨n - 4, by omega⟩
      have hform : List.replicate (m + 4) (0 : Nat)
          = 0 :: 0 :: 0 :: 0 :: List.replicate m 0 := rfl
      rw [hform] at hcase
      rcases hcase with h5 | h6
      · simp at h5
      · simp at h6
  · intro h4 hid3
    exact (hmain data).mpr ⟨h4, Or.inl hid3⟩

/-- Witness for C2 at concrete inputs: a 4-byte `ID3`-tagged input is
accepted. -/
theorem c2_validator_characterisation_witness :
    is_valid_mp3 [73, 68, 51, 0] = true :=
  (c2_validator_characterisation [73, 68, 51, 0]).2.2.2 (by decide) (by decide)

/-- Claim C7: the XOR primitive is self-inverse — for nonempty ciphertext
and nonempty key, applying `xor_decrypt` with the same key to the output of
`xor_decrypt` recovers the original bytes. -/
theorem c7_xor_round_trip (data key : List Nat) (hd : data ≠ []) (hk : key ≠ []) :
    (xor_decrypt data key).bind (fun p => xor_decrypt p key) = .ok data := by
  obtain ⟨b, bs, rfl⟩ : ∃ b bs, data = b :: bs := by
    cases data with
    | nil => exact absurd rfl hd
    | cons b bs => exact ⟨b, bs, rfl⟩
  have hk0 : ¬ key.length = 0 := by simpa [List.length_eq_zero] using hk
  have hxd : ∀ (c : Nat) (cs : List Nat),
      xor_decrypt (c :: cs) key = .ok (xorRun 0 (c :: cs) key) := by
    intro c cs; simp [xor_decrypt, hk0]
  rw [hxd b bs]
  show xor_decrypt (xorRun 0 (b :: bs) key) key = .ok (b :: bs)
  have h2 : xorRun 0 (b :: bs) key
      = (b ^^^ key.getD (0 % key.length) 0) :: xorRun (0 + 1) bs key := rfl
  rw [h2, hxd, ← h2]
  exact congrArg Except.ok (xorRun_xorRun key (b :: bs) 0)

/-- Witness for C7 at concrete inputs. -/
theorem c7_xor_round_trip_witness :
    (xor_decrypt [1, 2, 3] [7]).bind (fun p => xor_decrypt p [7]) = .ok [1, 2, 3] :=
  c7_xor_round_trip [1, 2, 3] [7] (by decide) (by decide)

/-- Claim C8: standard RC4 is self-inverse — for nonempty ciphertext and
nonempty key, `rc4_decrypt` applied twice with the same key reproduces the
original bytes. -/
theorem c8_rc4_round_trip (data key : List Nat) (hd : data ≠ []) (hk : key ≠ []) :
    (rc4_decrypt data key).bind (fun p => rc4_decrypt p key) = .ok data := by
  have hk0 : ¬ key.length = 0 := by simpa [List.length_eq_zero] using hk
  simp only [rc4_decrypt, hk0, if_false, ite_false, rc4Total]
  exact congrArg Except.ok (prgaRun_prgaRun data ⟨ksa key, 0, 0⟩)

/-- Witness for C8 at concrete inputs. -/
theorem c8_rc4_round_trip_witness :
    (rc4_decrypt [1, 2] [9]).bind (fun p => rc4_decrypt p [9]) = .ok [1, 2] :=
  c8_rc4_round_trip [1, 2] [9] (by decide) (by decide)

/-- Claim C3 (amended): the vendor variant performs the standard key
schedule and then exactly 1024 discard rounds of the swap-and-index
update, so its output on any ciphertext equals the standard RC4 output on
that ciphertext prefixed by 1024 zero bytes, with the first 1024 output
bytes dropped (a fixed 1024-byte keystream offset); for particular keys
the two outputs can nevertheless coincide. -/
theorem c3_vendor_offset (data key : List Nat) :
    rc4mi_decrypt data key
      = (rc4_decrypt (List.replicate 1024 0 ++ data) key).map (fun l => l.drop 1024) := by
  by_cases hk : key.length = 0
  · simp only [rc4mi_decrypt, rc4_decrypt, hk, if_true, ite_true]
    rfl
  · simp only [rc4mi_decrypt, rc4_decrypt, hk, if_neg, ite_false, Except.map]
    rw [rc4miTotal, rc4Total, foldl_const_iterate, prgaRun_append,
      List.drop_left' (by rw [length_prgaRun, List.length_replicate]),
      List.length_replicate]

/-- Claim C1: the trial loop isolates failures — the report has one entry
per registry entry, each entry is computed from its own primitive alone,
and a primitive that fails is recorded as that trial's failed result while
every sibling trial is still executed and reported unchanged. -/
theorem c1_failure_isolation (registry : List Primitive) (data key : List Nat) :
    (runAll registry data key).length = registry.length
    ∧ (∀ i : Nat, (runAll registry data key)[i]?
        = (registry[i]?).map (fun f => runTrial f data key))
    ∧ (∀ (i : Nat) (f : Primitive) (e : RunError),
        registry[i]? = some f → f data key = .error e →
        (runAll registry data key)[i]?
          = some ⟨.error e, false⟩) := by
  refine ⟨List.length_map _ _, fun i => List.getElem?_map _ _ _, fun i f e hf he => ?_⟩
  rw [runAll, List.getElem?_map, hf]
  simp [runTrial, he]

/-- Witness for C1: in a two-entry registry run on empty data with an
empty key, the second primitive's fault is captured as that trial's failed
result (the first trial, which succeeds, is reported alongside it). -/
theorem c1_failure_isolation_witness :
    (runAll [xor_decrypt, rc4_decrypt] [] [])[1]?
      = some ⟨.error .zeroDivision, false⟩ :=
  (c1_failure_isolation [xor_decrypt, rc4_decrypt] [] []).2.2 1 rc4_decrypt
    .zeroDivision rfl rfl

/-- Counterexample to C4 as stated: invoked with a zero-length key on the
empty ciphertext, `xor_decrypt` does not fail at all — the loop body never
executes and it returns empty bytes successfully, so it is not the case
that every ciphertext with an empty key yields a structured EmptyKey
error. -/
theorem c4_counterexample : xor_decrypt [] [] = Except.ok [] := rfl

/-- Claim C4 (amended): with a zero-length key and a nonempty ciphertext,
`xor_decrypt` fails with the division-by-zero runtime fault raised by
`i % len(key)` — there is no explicit empty-key check and no structured
EmptyKey error — while on the empty ciphertext it succeeds with empty
output; the fault is captured per trial by the orchestrator loop. -/
theorem c4_empty_key_fault (data : List Nat) (hd : data ≠ []) :
    xor_decrypt data [] = .error .zeroDivision
    ∧ xor_decrypt [] [] = .ok []
    ∧ rc4_decrypt data [] = .error .zeroDivision
    ∧ (runAll [xor_decrypt] data [])[0]?
        = some ⟨.error .zeroDivision, false⟩ := by
  obtain ⟨b, bs, rfl⟩ : ∃ b bs, data = b :: bs := by
    cases data with
    | nil => exact absurd rfl hd
    | cons b bs => exact ⟨b, bs, rfl⟩
  exact ⟨rfl, rfl, rfl, rfl⟩

/-- Witness for C4 (amended) at a concrete input. -/
theorem c4_empty_key_fault_witness :
    xor_decrypt [5] [] = .error .zeroDivision
    ∧ xor_decrypt [] [] = .ok []
    ∧ rc4_decrypt [5] [] = .error .zeroDivision
    ∧ (runAll [xor_decrypt] [5] [])[0]?
        = some ⟨.error .zeroDivision, false⟩ :=
  c4_empty_key_fault [5] (by simp)

/-- Claim C5: with a 16-byte key, the ECB and CBC trial wrappers zero-pad
the input to the next 16-byte boundary, hand the padded buffer to the
block decryption, and truncate the result back to exactly the original
input length (assuming the external block transform is length-preserving),
also when the input length is not a multiple of 16. -/
theorem c5_pad_truncate (blockDecE : List Nat → List Nat → List Nat)
    (blockDecC : List Nat → List Nat → List Nat → List Nat)
    (excMsgE excMsgC data key : List Nat)
    (hk : key.length = 16)
    (hE : ∀ k d, (blockDecE k d).length = d.length)
    (hC : ∀ k v d, (blockDecC k v d).length = d.length)
    (hmod : data.length % 16 ≠ 0) :
    aes_ecb_decrypt blockDecE excMsgE data key
      = (blockDecE key
          (data ++ List.replicate ((data.length + 15) / 16 * 16 - data.length) 0)).take
          data.length
    ∧ aes_cbc_decrypt blockDecC excMsgC data key none
      = (blockDecC key (List.replicate 16 0)
          (data ++ List.replicate ((data.length + 15) / 16 * 16 - data.length) 0)).take
          data.length
    ∧ (aes_ecb_decrypt blockDecE excMsgE data key).length = data.length
    ∧ (aes_cbc_decrypt blockDecC excMsgC data key none).length = data.length := by
  have hkey : aesKeyLenOk key = true := by simp [aesKeyLenOk, hk]
  have hpad : data.length ≤ (data.length + 15) / 16 * 16 := by
    have h1 := Nat.div_add_mod (data.length + 15) 16
    have h2 : (data.length + 15) % 16 < 16 := Nat.mod_lt _ (by norm_num)
    omega
  refine ⟨by simp [aes_ecb_decrypt, hkey], by simp [aes_cbc_decrypt, hkey], ?_, ?_⟩
  · simp only [aes_ecb_decrypt, hkey, if_true, ite_true]
    simp [hE, List.length_take]
  · simp only [aes_cbc_decrypt, hkey, Option.getD_none]
    simp [hC, List.length_take]

/-- Witness for C5 at concrete inputs: a 1-byte input through a
length-preserving stand-in block transform. -/
theorem c5_pad_truncate_witness :
    aes_ecb_decrypt (fun _ d => d) [] [1] (List.replicate 16 0)
      = ((fun (_ d : List Nat) => d) (List.replicate 16 0)
          ([1] ++ List.replicate (([1].length + 15) / 16 * 16 - [1].length) 0)).take
          [1].length
    ∧ aes_cbc_decrypt (fun _ _ d => d) [] [1] (List.replicate 16 0) none
      = ((fun (_ _ d : List Nat) => d) (List.replicate 16 0) (List.replicate 16 0)
          ([1] ++ List.replicate (([1].length + 15) / 16 * 16 - [1].length) 0)).take
          [1].length
    ∧ (aes_ecb_decrypt (fun _ d => d) [] [1] (List.replicate 16 0)).length = [1].length
    ∧ (aes_cbc_decrypt (fun _ _ d => d) [] [1] (List.replicate 16 0) none).length
        = [1].length :=
  c5_pad_truncate (fun _ d => d) (fun _ _ d => d) [] [] [1] (List.replicate 16 0)
    (by simp) (fun _ _ => rfl) (fun _ _ _ => rfl) (by decide)

/-- Counterexample to C6 as stated: with the 5-byte key the ECB wrapper
does not return a structured Unsupported error — it returns the exception
message encoded as plain bytes, and that byte string is identical to the
output of a successful 16-byte-key trial on suitable input, so the
recorded result is not distinguishable from a successfully decrypted
plaintext. -/
theorem c6_counterexample :
    aesKeyLenOk [1, 2, 3, 4, 5] = false
    ∧ aesKeyLenOk (List.replicate 16 0) = true
    ∧ aes_ecb_decrypt (fun _ d => d) [] errHead [1, 2, 3, 4, 5]
      = aes_ecb_decrypt (fun _ d => d) [] errHead (List.replicate 16 0) :=
  ⟨rfl, rfl, rfl⟩

/-- Claim C6 (amended): for every key length the AES library rejects, the
ECB trial wrapper returns the caught exception's message encoded as bytes
(`"Error: "` followed by the message text) instead of crashing, so the
orchestrator records a result for that trial and continues; the result is
a plain byte string, not a structured error value. -/
theorem c6_unsupported_key (blockDec : List Nat → List Nat → List Nat)
    (excMsg data key : List Nat) (hk : aesKeyLenOk key = false) :
    aes_ecb_decrypt blockDec excMsg data key = errHead ++ excMsg
    ∧ (runAll [fun d k => .ok (aes_ecb_decrypt blockDec excMsg d k)] data key)[0]?
        = some ⟨.ok (errHead ++ excMsg), is_valid_mp3 (errHead ++ excMsg)⟩ := by
  have h1 : aes_ecb_decrypt blockDec excMsg data key = errHead ++ excMsg := by
    simp [aes_ecb_decrypt, hk]
  refine ⟨h1, ?_⟩
  simp [runAll, runTrial, h1]

/-- Witness for C6 (amended) at a concrete 5-byte key. -/
theorem c6_unsupported_key_witness :
    aes_ecb_decrypt (fun _ d => d) [] [9] [1, 2, 3, 4, 5] = errHead ++ []
    ∧ (runAll [fun d k => .ok (aes_ecb_decrypt (fun _ d => d) [] d k)] [9]
        [1, 2, 3, 4, 5])[0]?
        = some ⟨.ok (errHead ++ []), is_valid_mp3 (errHead ++ [])⟩ :=
  c6_unsupported_key (fun _ d => d) [] [9] [1, 2, 3, 4, 5] rfl

lemma hexVal_lower (c v : Nat) (hc : isLowerHexChar c = true) (hv : hexVal c = some v) :
    hexDigit v = c := by
  simp only [isLowerHexChar, Bool.or_eq_true, Bool.and_eq_true, decide_eq_true_eq] at hc
  unfold hexVal at hv
  split_ifs at hv with h1 h2 h3 <;>
    simp only [Option.some.injEq] at hv <;>
    subst hv <;>
    unfold hexDigit <;>
    split_ifs <;>
    omega

lemma hexEncode_unhexlify :
    ∀ (s key : List Nat), (∀ c ∈ s, isLowerHexChar c = true) →
      unhexlify s = some key → hexEncode key = s
  | [], key, _, hp => by
    simp only [unhexlify, Option.some.injEq] at hp
    subst hp
    rfl
  | [_], _, _, hp => by
    simp [unhexlify] at hp
  | c1 :: c2 :: rest, key, hlo, hp => by
    have h1 : isLowerHexChar c1 = true := hlo c1 (by simp)
    have h2 : isLowerHexChar c2 = true := hlo c2 (by simp)
    unfold unhexlify at hp
    rcases hv1 : hexVal c1 with _ | h <;> rw [hv1] at hp
    · simp at hp
    rcases hv2 : hexVal c2 with _ | l <;> rw [hv2] at hp
    · simp at hp
    rcases hr : unhexlify rest with _ | r <;> rw [hr] at hp
    · simp at hp
    simp only [Option.some.injEq] at hp
    subst hp
    have hl16 : l < 16 := by
      unfold hexVal at hv2
      split_ifs at hv2 <;> simp only [Option.some.injEq] at hv2 <;> omega
    have hih := hexEncode_unhexlify rest r (fun c hc => hlo c (by simp [hc])) hr
    unfold hexEncode
    rw [show (16 * h + l) / 16 = h by omega, show (16 * h + l) % 16 = l by omega,
      hexVal_lower c1 h h1 hv1, hexVal_lower c2 l h2 hv2, hih]

/-- Claim C9: the hex-digest key derivation digests the key's canonical
lowercase hexadecimal text (not the raw key bytes): whenever the supplied
hex text is lowercase and decodes to the key bytes, the derived key equals
the digest of the canonical hex encoding of those bytes; it is always
exactly 16 bytes (the digest width), and it is determined by the key
material alone — any lowercase hex text denoting the same bytes derives
the identical key. -/
theorem c9_hex_digest_derivation (md5 : List Nat → List Nat) (s key : List Nat)
    (h16 : ∀ x, (md5 x).length = 16)
    (hlower : ∀ c ∈ s, isLowerHexChar c = true)
    (hparse : unhexlify s = some key) :
    md5_key md5 s = md5 (hexEncode key)
    ∧ (md5_key md5 s).length = 16
    ∧ (∀ t : List Nat, (∀ c ∈ t, isLowerHexChar c = true) →
        unhexlify t = some key → md5_key md5 t = md5_key md5 s) := by
  have h1 : hexEncode key = s := hexEncode_unhexlify s key hlower hparse
  refine ⟨by rw [md5_key, h1], h16 s, fun t ht hpt => ?_⟩
  have h2 : hexEncode key = t := hexEncode_unhexlify t key ht hpt
  rw [md5_key, md5_key, ← h1, ← h2]

/-- Witness for C9 at a concrete input: the lowercase hex text `"0a"`
(bytes 48, 97) decoding to the single key byte 10, with a stand-in
16-byte digest. -/
theorem c9_hex_digest_derivation_witness :
    md5_key (fun _ => List.replicate 16 0) [48, 97]
      = (fun _ => List.replicate 16 0) (hexEncode [10])
    ∧ (md5_key (fun _ => List.replicate 16 0) [48, 97]).length = 16
    ∧ (∀ t : List Nat, (∀ c ∈ t, isLowerHexChar c = true) →
        unhexlify t = some [10] →
        md5_key (fun _ => List.replicate 16 0) t
          = md5_key (fun _ => List.replicate 16 0) [48, 97]) :=
  c9_hex_digest_derivation (fun _ => List.replicate 16 0) [48, 97] [10]
    (fun _ => rfl) (by decide) rfl

lemma cons_getD_set_perm :
    ∀ (xs : List Nat) (j x : Nat), j < xs.length →
      List.Perm (xs.getD j 0 :: xs.set j x) (x :: xs)
  | y :: ys, 0, x, _ => by
    simpa using List.Perm.swap x y ys
  | y :: ys, j + 1, x, hj => by
    have hj' : j < ys.length := by simpa using hj
    have ih := cons_getD_set_perm ys j x hj'
    show List.Perm (ys.getD j 0 :: y :: ys.set j x) (x :: y :: ys)
    exact ((List.Perm.swap y (ys.getD j 0) (ys.set j x)).trans
      (List.Perm.cons y ih)).trans (List.Perm.swap x y ys)

lemma listSwap_perm :
    ∀ (l : List Nat) (i j : Nat), i < l.length → j < l.length →
      List.Perm (listSwap l i j) l
  | x :: xs, 0, 0, _, _ => by
    simp [listSwap]
  | x :: xs, 0, j + 1, _, hj => by
    have hj' : j < xs.length := by simpa using hj
    have h : listSwap (x :: xs) 0 (j + 1) = xs.getD j 0 :: xs.set j x := rfl
    rw [h]
    exact cons_getD_set_perm xs j x hj'
  | x :: xs, i + 1, 0, hi, _ => by
    have hi' : i < xs.length := by simpa using hi
    have h : listSwap (x :: xs) (i + 1) 0 = xs.getD i 0 :: xs.set i x := rfl
    rw [h]
    exact cons_getD_set_perm xs i x hi'
  | x :: xs, i + 1, j + 1, hi, hj => by
    have hi' : i < xs.length := by simpa using hi
    have hj' : j < xs.length := by simpa using hj
    have h : listSwap (x :: xs) (i + 1) (j + 1) = x :: listSwap xs i j := rfl
    rw [h]
    exact List.Perm.cons x (listSwap_perm xs i j hi' hj')

lemma ksaFold_perm (key : List Nat) :
    ∀ (is : List Nat), (∀ i ∈ is, i < 256) →
      ∀ (p : List Nat × Nat), List.Perm p.1 (List.range 256) →
      List.Perm ((is.foldl
        (fun (q : List Nat × Nat) i =>
          let j := (q.2 + q.1.getD i 0 + key.getD (i % key.length) 0) % 256
          (listSwap q.1 i j, j)) p).1) (List.range 256)
  | [], _, p, hp => hp
  | i :: rest, hmem, p, hp => by
    have hlen : p.1.length = 256 := by
      rw [hp.length_eq, List.length_range]
    have hi : i < p.1.length := by
      rw [hlen]; exact hmem i (by simp)
    have hj : (p.2 + p.1.getD i 0 + key.getD (i % key.length) 0) % 256 < p.1.length := by
      rw [hlen]; exact Nat.mod_lt _ (by norm_num)
    exact ksaFold_perm key rest (fun a ha => hmem a (by simp [ha])) _
      ((listSwap_perm p.1 i _ hi hj).trans hp)

set_option maxRecDepth 4000 in
lemma ksa_perm (key : List Nat) : List.Perm (ksa key) (List.range 256) := by
  unfold ksa
  exact ksaFold_perm key (List.range 256) (fun i hi => List.mem_range.mp hi)
    (List.range 256, 0) (List.Perm.refl _)

lemma prgaStep_perm (st : Rc4State) (h : List.Perm st.S (List.range 256)) :
    List.Perm (prgaStep st).S (List.range 256) := by
  have hlen : st.S.length = 256 := by rw [h.length_eq, List.length_range]
  have hi : (st.i + 1) % 256 < st.S.length := by
    rw [hlen]; exact Nat.mod_lt _ (by norm_num)
  have hj : (st.j + st.S.getD ((st.i + 1) % 256) 0) % 256 < st.S.length := by
    rw [hlen]; exact Nat.mod_lt _ (by norm_num)
  exact (listSwap_perm st.S _ _ hi hj).trans h

lemma prgaStep_iterate_perm :
    ∀ (n : Nat) (st : Rc4State), List.Perm st.S (List.range 256) →
      List.Perm ((prgaStep^[n] st).S) (List.range 256)
  | 0, _, h => h
  | n + 1, st, h => by
    rw [Function.iterate_succ_apply]
    exact prgaStep_iterate_perm n (prgaStep st) (prgaStep_perm st h)

lemma mk_S (S : List Nat) (i j : Nat) : (Rc4State.mk S i j).S = S := rfl

/-- Claim C10: in both RC4 primitives the 256-entry state is a permutation
of `0..255` after key scheduling and stays one after every subsequent
swap-and-index step — the warm-up rounds and the keystream-generation
rounds of both variants iterate exactly this step. -/
theorem c10_state_permutation (key : List Nat) (hk : key ≠ []) :
    List.Perm (ksa key) (List.range 256)
    ∧ (∀ n : Nat, List.Perm ((prgaStep^[n] ⟨ksa key, 0, 0⟩).S) (List.range 256)) := by
  have h : List.Perm (Rc4State.mk (ksa key) 0 0).S (List.range 256) := by
    rw [mk_S]
    exact ksa_perm key
  exact ⟨ksa_perm key, fun n => prgaStep_iterate_perm n ⟨ksa key, 0, 0⟩ h⟩

set_option maxRecDepth 4000 in
/-- Witness for C10 at the concrete key `[1]`. -/
theorem c10_state_permutation_witness :
    List.Perm (ksa [1]) (List.range 256) :=
  (c10_state_permutation [1] (by simp)).1

set_option maxRecDepth 4000 in
lemma ksa19_eval : ksa [19] = ksaL19v0 := by decide

set_option maxRecDepth 4000 in
lemma warm_eval1 : prgaStep^[128] warmSt0 = warmSt1 := by decide

set_option maxRecDepth 4000 in
lemma warm_eval2 : prgaStep^[128] warmSt1 = warmSt2 := by decide

set_option maxRecDepth 4000 in
lemma warm_eval3 : prgaStep^[128] warmSt2 = warmSt3 := by decide

set_option maxRecDepth 4000 in
lemma warm_eval4 : prgaStep^[128] warmSt3 = warmSt4 := by decide

set_option maxRecDepth 4000 in
lemma warm_eval5 : prgaStep^[128] warmSt4 = warmSt5 := by decide

set_option maxRecDepth 4000 in
lemma warm_eval6 : prgaStep^[128] warmSt5 = warmSt6 := by decide

set_option maxRecDepth 4000 in
lemma warm_eval7 : prgaStep^[128] warmSt6 = warmSt7 := by decide

set_option maxRecDepth 4000 in
lemma warm_eval8 : prgaStep^[128] warmSt7 = warmSt8 := by decide

lemma warm1024_eval : prgaStep^[1024] warmSt0 = warmSt8 := by
  have t1 : prgaStep^[1024] warmSt0 = prgaStep^[896] warmSt1 := by
    rw [← warm_eval1]
    exact Function.iterate_add_apply prgaStep 896 128 warmSt0
  have t2 : prgaStep^[896] warmSt1 = prgaStep^[768] warmSt2 := by
    rw [← warm_eval2]
    exact Function.iterate_add_apply prgaStep 768 128 warmSt1
  have t3 : prgaStep^[768] warmSt2 = prgaStep^[640] warmSt3 := by
    rw [← warm_eval3]
    exact Function.iterate_add_apply prgaStep 640 128 warmSt2
  have t4 : prgaStep^[640] warmSt3 = prgaStep^[512] warmSt4 := by
    rw [← warm_eval4]
    exact Function.iterate_add_apply prgaStep 512 128 warmSt3
  have t5 : prgaStep^[512] warmSt4 = prgaStep^[384] warmSt5 := by
    rw [← warm_eval5]
    exact Function.iterate_add_apply prgaStep 384 128 warmSt4
  have t6 : prgaStep^[384] warmSt5 = prgaStep^[256] warmSt6 := by
    rw [← warm_eval6]
    exact Function.iterate_add_apply prgaStep 256 128 warmSt5
  have t7 : prgaStep^[256] warmSt6 = prgaStep^[128] warmSt7 := by
    rw [← warm_eval7]
    exact Function.iterate_add_apply prgaStep 128 128 warmSt6
  exact t1.trans (t2.trans (t3.trans (t4.trans (t5.trans (t6.trans
    (t7.trans warm_eval8))))))

set_option maxRecDepth 4000 in
lemma rc4_19_eval : rc4_decrypt [0] [19] = .ok (prgaRun warmSt0 [0]) := by
  have h : rc4Total [0] [19] = prgaRun warmSt0 [0] := by
    rw [rc4Total, ksa19_eval]
    rfl
  rw [rc4_decrypt, if_neg (by decide), h]

set_option maxRecDepth 4000 in
lemma rc4mi_19_eval : rc4mi_decrypt [0] [19] = .ok (prgaRun warmSt8 [0]) := by
  have h : rc4miTotal [0] [19] = prgaRun warmSt8 [0] := by
    rw [rc4miTotal, foldl_const_iterate, ksa19_eval]
    show prgaRun (prgaStep^[1024] warmSt0) [0] = prgaRun warmSt8 [0]
    rw [warm1024_eval]
  rw [rc4mi_decrypt, if_neg (by decide), h]

set_option maxRecDepth 4000 in
/-- Counterexample to C3 as stated: the universal-difference part fails —
for the single-byte key `[19]` and the one-byte ciphertext `[0]`, the
standard RC4 output and the vendor-variant output are the same byte
(the standard keystream happens to repeat at offset 1024 for this key). -/
theorem c3_counterexample :
    rc4_decrypt [0] [19] = rc4mi_decrypt [0] [19]
    ∧ rc4_decrypt [0] [19] = .ok [88] := by
  have h1 : prgaRun warmSt0 [0] = [88] := by decide
  have h2 : prgaRun warmSt8 [0] = [88] := by decide
  rw [rc4_19_eval, rc4mi_19_eval, h1, h2]
  exact ⟨rfl, rfl⟩
